import Mathlib

/-!
Verification of the authentication / rate-limiting / GA4 response-shaping
logic of the ga4-realtime-api service.

The Python sources are embedded shallowly:

* `src/services/auth_service.py` — `RateLimiter`, `AuthService` (the
  authentication resolver).
* `src/oauth.py` — `OAuthUserManager.save_oauth_token`,
  `OAuthUserManager.refresh_user_token`.
* `src/ga4_extensions.py` — the response-shaping query functions.
* `src/main.py` — the single-page analytics endpoint's "not found" mapping.

Modelling conventions:

* Wall-clock instants (`time.time()` floats and `datetime` values) are
  modelled as exact rationals `ℚ`; the code only compares and subtracts.
* The Python dict `RateLimiter.requests` is modelled as a total function
  `String → List ℚ` whose default value is `[]`; the statement
  `if identifier not in self.requests: self.requests[identifier] = []`
  is the identity under this representation.
* Database sessions are modelled as an explicit record of row lists, and
  SQLAlchemy queries as list searches over them; `await db.execute(...)`
  with `.first()` returns the first matching element in row order.
* External collaborators (the OAuth provider's refresh endpoint, the GA4
  Data API) are oracles passed in as parameters.
* A raised `HTTPException` is modelled as an `Except.error`; crucially, in
  `AuthService._verify_api_key` the `raise HTTPException(429)` sits inside
  a `try:` whose handler is the blanket `except Exception` (FastAPI's
  `HTTPException` is an `Exception` subclass), so there the raise is
  swallowed and control falls through to the static-key check; the
  embedding reproduces that control flow literally.
-/

namespace GA4Spec

/-! ### `RateLimiter` (src/services/auth_service.py lines 25–48) -/

structure RateLimiter where
  max_requests : Nat
  time_window : ℚ
  requests : String → List ℚ

/-- Fresh limiter as built by `RateLimiter.__init__` (empty request map). -/
def RateLimiter.init (max_requests : Nat) (time_window : ℚ) : RateLimiter :=
  { max_requests := max_requests, time_window := time_window, requests := fun _ => [] }

/-- `RateLimiter.is_allowed` (lines 31–48).  `now` is the value read from
`time.time()`.  Returns the boolean result together with the mutated state. -/
def RateLimiter.is_allowed (rl : RateLimiter) (identifier : String) (now : ℚ) :
    Bool × RateLimiter :=
  let kept := (rl.requests identifier).filter (fun t => now - t < rl.time_window)
  if rl.max_requests ≤ kept.length then
    (false, { rl with requests := Function.update rl.requests identifier kept })
  else
    (true, { rl with requests := Function.update rl.requests identifier (kept ++ [now]) })

/-- The reference algorithm of spec §4.1, acting on a single identity's
timestamp list: (1) take the current time; (2) drop the entries that have
fallen out of the trailing window (per §3 the retained list "contains only
timestamps younger than the window", i.e. entries of age `≥ time_window`
are removed); (3) if the remaining count is at least `max_requests`,
reject without recording the attempt; (4) otherwise append the current
time and allow. -/
def referenceAllowStep (max_requests : Nat) (time_window : ℚ) (now : ℚ)
    (history : List ℚ) : Bool × List ℚ :=
  let younger := history.filter (fun t => now - t < time_window)
  if max_requests ≤ younger.length then (false, younger)
  else (true, younger ++ [now])

/-- A sequence of `is_allowed` calls on one fixed identity at the given
times, collecting the results. -/
def RateLimiter.runOn (rl : RateLimiter) (identifier : String) :
    List ℚ → List Bool × RateLimiter
  | [] => ([], rl)
  | t :: ts =>
    let step := rl.is_allowed identifier t
    let rest := step.2.runOn identifier ts
    (step.1 :: rest.1, rest.2)

/-- A sequence of `is_allowed` calls on arbitrary identities (each call is
an identity string together with the time observed by that call). -/
def RateLimiter.runCalls (rl : RateLimiter) : List (String × ℚ) → RateLimiter
  | [] => rl
  | c :: cs => (rl.is_allowed c.1 c.2).2.runCalls cs

/-! #### Basic lemmas about `is_allowed` -/

theorem is_allowed_max_requests (rl : RateLimiter) (i : String) (now : ℚ) :
    (rl.is_allowed i now).2.max_requests = rl.max_requests := by
  dsimp only [RateLimiter.is_allowed]
  split <;> rfl

theorem is_allowed_time_window (rl : RateLimiter) (i : String) (now : ℚ) :
    (rl.is_allowed i now).2.time_window = rl.time_window := by
  dsimp only [RateLimiter.is_allowed]
  split <;> rfl

theorem is_allowed_requests_other (rl : RateLimiter) (i k : String) (now : ℚ)
    (hk : k ≠ i) : (rl.is_allowed i now).2.requests k = rl.requests k := by
  dsimp only [RateLimiter.is_allowed]
  split <;> simp [Function.update_noteq hk]

theorem is_allowed_requests_self (rl : RateLimiter) (i : String) (now : ℚ) :
    (rl.is_allowed i now).2.requests i =
      (referenceAllowStep rl.max_requests rl.time_window now (rl.requests i)).2 := by
  dsimp only [RateLimiter.is_allowed, referenceAllowStep]
  split <;> simp_all

theorem is_allowed_fst (rl : RateLimiter) (i : String) (now : ℚ) :
    (rl.is_allowed i now).1 =
      (referenceAllowStep rl.max_requests rl.time_window now (rl.requests i)).1 := by
  dsimp only [RateLimiter.is_allowed, referenceAllowStep]
  split <;> simp_all

/-- **C3.**  `RateLimiter.is_allowed` behaves exactly as the reference
algorithm `referenceAllowStep` on the checked identity (prune the entries
that have aged out of the window, reject without recording when the
remaining count reaches `max_requests`, otherwise record the current time
and allow), and it leaves every other identity's list, as well as the
configured `max_requests` and `time_window`, unchanged. -/
theorem claim_C3_is_allowed_matches_reference (rl : RateLimiter) (i k : String)
    (now : ℚ) (hk : k ≠ i) :
    (rl.is_allowed i now).1 =
        (referenceAllowStep rl.max_requests rl.time_window now (rl.requests i)).1 ∧
      (rl.is_allowed i now).2.requests i =
        (referenceAllowStep rl.max_requests rl.time_window now (rl.requests i)).2 ∧
      (rl.is_allowed i now).2.requests k = rl.requests k ∧
      (rl.is_allowed i now).2.max_requests = rl.max_requests ∧
      (rl.is_allowed i now).2.time_window = rl.time_window :=
  ⟨is_allowed_fst rl i now, is_allowed_requests_self rl i now,
    is_allowed_requests_other rl i k now hk, is_allowed_max_requests rl i now,
    is_allowed_time_window rl i now⟩

/-- Witness for C3 at a concrete limiter state: the identity not being
checked keeps its recorded list. -/
theorem claim_C3_witness :
    ((RateLimiter.is_allowed ⟨2, 10, fun _ => [1, 5]⟩ "a" 6).2.requests "b") = [1, 5] :=
  (claim_C3_is_allowed_matches_reference ⟨2, 10, fun _ => [1, 5]⟩ "a" "b" 6
    (by decide)).2.2.1

/-! #### Lemmas about call sequences, for the sliding-window claims -/

theorem runOn_max_requests (i : String) :
    ∀ (ts : List ℚ) (rl : RateLimiter),
      (rl.runOn i ts).2.max_requests = rl.max_requests
  | [], rl => rfl
  | t :: ts, rl => by
    dsimp only [RateLimiter.runOn]
    rw [runOn_max_requests i ts, is_allowed_max_requests]

theorem runOn_time_window (i : String) :
    ∀ (ts : List ℚ) (rl : RateLimiter),
      (rl.runOn i ts).2.time_window = rl.time_window
  | [], rl => rfl
  | t :: ts, rl => by
    dsimp only [RateLimiter.runOn]
    rw [runOn_time_window i ts, is_allowed_time_window]

/-- In one `is_allowed` step the checked identity's list moves to a
sublist of the old list with the call time appended. -/
theorem is_allowed_requests_self_sublist (rl : RateLimiter) (i : String) (now : ℚ) :
    ((rl.is_allowed i now).2.requests i).Sublist (rl.requests i ++ [now]) := by
  rw [is_allowed_requests_self]
  dsimp only [referenceAllowStep]
  split
  · exact ((rl.requests i).filter_sublist.trans (List.sublist_append_left _ _))
  · exact List.Sublist.append (rl.requests i).filter_sublist (List.Sublist.refl _)

/-- After any run of calls on identity `i`, its list is a sublist of the
original list followed by the call times (no timestamp appears from
nowhere). -/
theorem runOn_requests_sublist (i : String) :
    ∀ (ts : List ℚ) (rl : RateLimiter),
      ((rl.runOn i ts).2.requests i).Sublist (rl.requests i ++ ts)
  | [], rl => by
    dsimp only [RateLimiter.runOn]
    simp
  | t :: ts, rl => by
    dsimp only [RateLimiter.runOn]
    refine (runOn_requests_sublist i ts _).trans ?_
    rw [List.append_cons]
    exact List.Sublist.append (is_allowed_requests_self_sublist rl i t)
      (List.Sublist.refl _)

/-- If every call in a run on identity `i` is allowed and all the call
times (as well as a carried sublist `pre` of the current list) lie in a
span shorter than the window, then `pre` followed by the call times is a
sublist of the final list: nothing gets pruned and every allowed call
records its timestamp. -/
theorem runOn_sublist_of_all_true (i : String) (t1 t : ℚ) :
    ∀ (ts : List ℚ) (rl : RateLimiter) (pre : List ℚ),
      pre.Sublist (rl.requests i) →
      (∀ s ∈ pre, t1 ≤ s ∧ s ≤ t) →
      (∀ u ∈ ts, t1 ≤ u ∧ u ≤ t) →
      t - t1 < rl.time_window →
      (rl.runOn i ts).1 = List.replicate ts.length true →
      (pre ++ ts).Sublist ((rl.runOn i ts).2.requests i)
  | [], rl, pre, hpre, _, _, _, _ => by simpa using hpre
  | u :: us, rl, pre, hpre, hpreB, htsB, hwin, hall => by
    dsimp only [RateLimiter.runOn] at hall ⊢
    rw [List.length_cons, List.replicate_succ] at hall
    have hfst : (rl.is_allowed i u).1 = true := congrArg List.head! hall
    have hrest : ((rl.is_allowed i u).2.runOn i us).1 = List.replicate us.length true :=
      congrArg List.tail hall
    have huB := htsB u (List.mem_cons_self u us)
    -- the first call is accepted, so the new list is the pruned old list
    -- with `u` appended
    have hself : (rl.is_allowed i u).2.requests i =
        (rl.requests i).filter (fun s => u - s < rl.time_window) ++ [u] := by
      rw [is_allowed_requests_self]
      dsimp only [referenceAllowStep]
      split
      · exfalso
        rw [is_allowed_fst] at hfst
        dsimp only [referenceAllowStep] at hfst
        split at hfst <;> simp_all
      · rfl
    have hkeep : ∀ s ∈ pre, (fun s => decide (u - s < rl.time_window)) s = true := by
      intro s hs
      have hsB := hpreB s hs
      simp only [decide_eq_true_eq]
      calc u - s ≤ t - t1 := by
            have := huB.2
            have := hsB.1
            linarith
        _ < rl.time_window := hwin
    have hpre2 : (pre ++ [u]).Sublist ((rl.is_allowed i u).2.requests i) := by
      rw [hself]
      refine List.Sublist.append ?_ (List.Sublist.refl _)
      have := hpre.filter (fun s => decide (u - s < rl.time_window))
      rwa [List.filter_eq_self.mpr hkeep] at this
    have hrec := runOn_sublist_of_all_true i t1 t us ((rl.is_allowed i u).2) (pre ++ [u])
      hpre2
      (by
        intro s hs
        rcases List.mem_append.mp hs with h | h
        · exact hpreB s h
        · simpa [List.mem_singleton.mp h] using huB)
      (fun v hv => htsB v (List.mem_cons_of_mem u hv))
      (by rwa [is_allowed_time_window])
      hrest
    rwa [List.append_cons]

/-- **C4.**  Sliding-window behaviour: if `N = max_requests` calls on
identity `i` (at nondecreasing times `t1 :: rest` spanning less than the
window) are all allowed, then an `(N+1)`-th call at a time `t` within
`time_window` of the first call is rejected; and any subsequent call at a
time `t'` more than `time_window` after the first call is allowed again
(the window slides).  The initial list for `i` may be any well-formed
history (timestamps no later than `t1`). -/
theorem claim_C4_sliding_window (rl : RateLimiter) (i : String) (t1 t t' : ℚ)
    (rest : List ℚ)
    (hN : (t1 :: rest).length = rl.max_requests)
    (hall : (rl.runOn i (t1 :: rest)).1 = List.replicate rl.max_requests true)
    (hbounds : ∀ s ∈ t1 :: rest, t1 ≤ s ∧ s ≤ t)
    (hwin : t - t1 < rl.time_window)
    (hinit : ∀ s ∈ rl.requests i, s ≤ t1)
    (hlate : rl.time_window < t' - t1) :
    (((rl.runOn i (t1 :: rest)).2).is_allowed i t).1 = false ∧
      (((rl.runOn i (t1 :: rest)).2).is_allowed i t').1 = true := by
  set S := (rl.runOn i (t1 :: rest)).2 with hS
  have hSmax : S.max_requests = rl.max_requests := runOn_max_requests i _ rl
  have hSwin : S.time_window = rl.time_window := runOn_time_window i _ rl
  constructor
  · -- the (N+1)-th call within the window is rejected
    have hsub : (t1 :: rest).Sublist (S.requests i) := by
      have := runOn_sublist_of_all_true i t1 t (t1 :: rest) rl []
        (List.nil_sublist _) (by intro s hs; simp at hs) hbounds hwin
        (by rw [← hN] at hall; exact hall)
      simpa using this
    rw [is_allowed_fst]
    dsimp only [referenceAllowStep]
    have hkeep : ∀ s ∈ t1 :: rest,
        (fun s => decide (t - s < S.time_window)) s = true := by
      intro s hs
      have hsB := hbounds s hs
      simp only [decide_eq_true_eq, hSwin]
      have : t - s ≤ t - t1 := by linarith [hsB.1]
      linarith
    have hlen : rl.max_requests ≤
        ((S.requests i).filter (fun s => decide (t - s < S.time_window))).length := by
      have hfs := hsub.filter (fun s => decide (t - s < S.time_window))
      rw [List.filter_eq_self.mpr hkeep] at hfs
      calc rl.max_requests = (t1 :: rest).length := hN.symm
        _ ≤ _ := hfs.length_le
    rw [hSmax, if_pos hlen]
  · -- a call more than a window after the first is allowed again
    have hsub : ((S.requests i)).Sublist (rl.requests i ++ (t1 :: rest)) :=
      runOn_requests_sublist i (t1 :: rest) rl
    rw [is_allowed_fst]
    dsimp only [referenceAllowStep]
    have hfs := hsub.filter (fun s => decide (t' - s < S.time_window))
    rw [List.filter_append] at hfs
    have hnil : (rl.requests i).filter (fun s => decide (t' - s < S.time_window)) = [] := by
      rw [List.filter_eq_nil_iff]
      intro s hs
      have := hinit s hs
      simp only [decide_eq_true_eq, hSwin]
      intro hcon
      have : t' - t1 ≤ t' - s := by linarith
      linarith
    have hhead : (fun s => decide (t' - s < S.time_window)) t1 = false := by
      simp only [decide_eq_false_iff_not, hSwin]
      intro hcon
      linarith
    have hlen : ((S.requests i).filter
        (fun s => decide (t' - s < S.time_window))).length < rl.max_requests := by
      have h1 := hfs.length_le
      rw [hnil, List.nil_append, List.filter_cons_of_neg (by simpa using hhead)] at h1
      have h2 : (rest.filter (fun s => decide (t' - s < S.time_window))).length ≤
          rest.length := List.length_filter_le _ _
      have h3 : rest.length < rl.max_requests := by
        rw [← hN]; simp
      omega
    rw [hSmax, if_neg (Nat.not_le.mpr hlen)]

/-- Witness for C4: limiter with `max_requests = 2`, `time_window = 10`,
empty history; two allowed calls at times 0 and 1; a third call at time 5
is rejected and a call at time 11 is allowed again. -/
theorem claim_C4_witness :
    ((RateLimiter.runOn ⟨2, 10, fun _ => []⟩ "a" [0, 1]).2.is_allowed "a" 5).1 = false ∧
      ((RateLimiter.runOn ⟨2, 10, fun _ => []⟩ "a" [0, 1]).2.is_allowed "a" 11).1 = true :=
  claim_C4_sliding_window ⟨2, 10, fun _ => []⟩ "a" 0 5 11 [1]
    (by decide)
    (by norm_num [RateLimiter.runOn, RateLimiter.is_allowed, Function.update,
      List.replicate])
    (by norm_num) (by norm_num) (by norm_num) (by norm_num)

/-! #### Noninterference and invariants of the limiter state -/

theorem runCalls_max_requests :
    ∀ (cs : List (String × ℚ)) (rl : RateLimiter),
      (rl.runCalls cs).max_requests = rl.max_requests
  | [], rl => rfl
  | c :: cs, rl => by
    dsimp only [RateLimiter.runCalls]
    rw [runCalls_max_requests cs, is_allowed_max_requests]

theorem runCalls_time_window :
    ∀ (cs : List (String × ℚ)) (rl : RateLimiter),
      (rl.runCalls cs).time_window = rl.time_window
  | [], rl => rfl
  | c :: cs, rl => by
    dsimp only [RateLimiter.runCalls]
    rw [runCalls_time_window cs, is_allowed_time_window]

theorem runCalls_requests_other (k : String) :
    ∀ (cs : List (String × ℚ)) (rl : RateLimiter),
      (∀ c ∈ cs, c.1 ≠ k) → (rl.runCalls cs).requests k = rl.requests k
  | [], rl, _ => rfl
  | c :: cs, rl, h => by
    dsimp only [RateLimiter.runCalls]
    rw [runCalls_requests_other k cs _ (fun d hd => h d (List.mem_cons_of_mem c hd)),
      is_allowed_requests_other _ _ _ _ (Ne.symm (h c (List.mem_cons_self c cs)))]

/-- The result of `is_allowed` only depends on the configuration and on
the checked identity's own list. -/
theorem is_allowed_fst_congr (rl rl' : RateLimiter) (k : String) (now : ℚ)
    (hmax : rl.max_requests = rl'.max_requests)
    (hwin : rl.time_window = rl'.time_window)
    (hreq : rl.requests k = rl'.requests k) :
    (rl.is_allowed k now).1 = (rl'.is_allowed k now).1 := by
  rw [is_allowed_fst, is_allowed_fst, hmax, hwin, hreq]

/-- **C8.**  Noninterference between identities: any sequence of
`is_allowed` calls on identities other than `I2` (in particular, calls
that exhaust some identity `I1 ≠ I2`) leaves the limiter state restricted
to `I2` unchanged, and hence never changes the result that a subsequent
`is_allowed` call on `I2` would return. -/
theorem claim_C8_noninterference (rl : RateLimiter) (cs : List (String × ℚ))
    (I2 : String) (h : ∀ c ∈ cs, c.1 ≠ I2) :
    (rl.runCalls cs).requests I2 = rl.requests I2 ∧
      ∀ now : ℚ, ((rl.runCalls cs).is_allowed I2 now).1 = (rl.is_allowed I2 now).1 := by
  refine ⟨runCalls_requests_other I2 cs rl h, fun now => ?_⟩
  exact is_allowed_fst_congr _ _ I2 now (runCalls_max_requests cs rl)
    (runCalls_time_window cs rl) (runCalls_requests_other I2 cs rl h)

/-- Witness for C8: three calls on "x" (the third of which exhausts the
limit of 2) leave the decision for "y" unchanged. -/
theorem claim_C8_witness :
    ((RateLimiter.runCalls ⟨2, 10, fun _ => []⟩
        [("x", 0), ("x", 1), ("x", 2)]).is_allowed "y" 3).1 =
      ((⟨2, 10, fun _ => []⟩ : RateLimiter).is_allowed "y" 3).1 :=
  (claim_C8_noninterference ⟨2, 10, fun _ => []⟩ [("x", 0), ("x", 1), ("x", 2)] "y"
    (by decide)).2 3

/-- One `is_allowed` step keeps every identity's list no longer than
`max_requests`, provided that bound held before. -/
theorem is_allowed_length_le (rl : RateLimiter) (i : String) (now : ℚ)
    (h : ∀ k, (rl.requests k).length ≤ rl.max_requests) :
    ∀ k, ((rl.is_allowed i now).2.requests k).length ≤ rl.max_requests := by
  intro k
  by_cases hk : k = i
  · subst hk
    rw [is_allowed_requests_self]
    dsimp only [referenceAllowStep]
    split
    · exact le_trans (List.length_filter_le _ _) (h k)
    · rw [List.length_append, List.length_singleton]
      exact Nat.lt_of_not_le (by assumption)
  · rw [is_allowed_requests_other rl i k now hk]
    exact h k

theorem runCalls_length_le :
    ∀ (cs : List (String × ℚ)) (rl : RateLimiter),
      (∀ k, (rl.requests k).length ≤ rl.max_requests) →
      ∀ k, ((rl.runCalls cs).requests k).length ≤ rl.max_requests
  | [], rl, h => h
  | c :: cs, rl, h => by
    dsimp only [RateLimiter.runCalls]
    have hstep := is_allowed_length_le rl c.1 c.2 h
    rw [← is_allowed_max_requests rl c.1 c.2] at hstep ⊢
    exact runCalls_length_le cs _ hstep

/-- One `is_allowed` step at time `now` stores only timestamps that are at
most `T`, provided the old ones were and `now ≤ T`. -/
theorem is_allowed_le_time (rl : RateLimiter) (i : String) (now T : ℚ)
    (h : ∀ k, ∀ s ∈ rl.requests k, s ≤ T) (hnow : now ≤ T) :
    ∀ k, ∀ s ∈ (rl.is_allowed i now).2.requests k, s ≤ T := by
  intro k s hs
  by_cases hk : k = i
  · subst hk
    rw [is_allowed_requests_self] at hs
    dsimp only [referenceAllowStep] at hs
    split at hs
    · exact h k s (List.mem_of_mem_filter hs)
    · rcases List.mem_append.mp hs with h1 | h1
      · exact h k s (List.mem_of_mem_filter h1)
      · rw [List.mem_singleton.mp h1]; exact hnow
  · rw [is_allowed_requests_other rl i k now hk] at hs
    exact h k s hs

theorem runCalls_le_time (T : ℚ) :
    ∀ (cs : List (String × ℚ)) (rl : RateLimiter),
      (∀ k, ∀ s ∈ rl.requests k, s ≤ T) → (∀ c ∈ cs, c.2 ≤ T) →
      ∀ k, ∀ s ∈ (rl.runCalls cs).requests k, s ≤ T
  | [], _, h, _ => h
  | c :: cs, rl, h, hc => by
    dsimp only [RateLimiter.runCalls]
    exact runCalls_le_time T cs _
      (is_allowed_le_time rl c.1 c.2 T h (hc c (List.mem_cons_self c cs)))
      (fun d hd => hc d (List.mem_cons_of_mem c hd))

theorem runCalls_append (rl : RateLimiter) :
    ∀ (as bs : List (String × ℚ)),
      rl.runCalls (as ++ bs) = (rl.runCalls as).runCalls bs := by
  intro as
  induction as generalizing rl with
  | nil => intro bs; rfl
  | cons c cs ih => intro bs; dsimp only [RateLimiter.runCalls]; exact ih _ bs

/-- **C10.**  Invariant of the limiter state reached from a fresh limiter
by any sequence of calls whose times do not exceed the time of the last
call: after the final call (on identity `i`, observing time `now`), every
identity's stored list has length at most `max_requests`, and every
timestamp stored for `i` is at most `now` and strictly within
`time_window` of `now`. -/
theorem claim_C10_state_invariant (max : Nat) (W : ℚ) (hW : 0 < W)
    (cs : List (String × ℚ)) (i : String) (now : ℚ)
    (hpast : ∀ c ∈ cs, c.2 ≤ now) :
    (∀ k, (((RateLimiter.init max W).runCalls (cs ++ [(i, now)])).requests k).length ≤ max) ∧
      ∀ s ∈ ((RateLimiter.init max W).runCalls (cs ++ [(i, now)])).requests i,
        s ≤ now ∧ now - s < W := by
  rw [runCalls_append]
  set S := (RateLimiter.init max W).runCalls cs with hS
  have hSmax : S.max_requests = max := runCalls_max_requests cs _
  have hSwin : S.time_window = W := runCalls_time_window cs _
  have hbound : ∀ k, ∀ s ∈ S.requests k, s ≤ now :=
    runCalls_le_time now cs _
      (fun k s hs => absurd hs (List.not_mem_nil s)) hpast
  constructor
  · intro k
    have hlen : ∀ k, (S.requests k).length ≤ S.max_requests := by
      rw [hSmax]
      exact runCalls_length_le cs _ (fun k => Nat.zero_le _)
    have := is_allowed_length_le S i now hlen k
    dsimp only [RateLimiter.runCalls]
    rwa [hSmax] at this
  · intro s hs
    dsimp only [RateLimiter.runCalls] at hs
    rw [is_allowed_requests_self] at hs
    dsimp only [referenceAllowStep] at hs
    have hfilter : ∀ s,
        s ∈ (S.requests i).filter (fun t => decide (now - t < S.time_window)) →
        s ≤ now ∧ now - s < W := by
      intro u hu
      have h1 := hbound i u (List.mem_of_mem_filter hu)
      have h2 := List.of_mem_filter hu
      rw [decide_eq_true_eq, hSwin] at h2
      exact ⟨h1, h2⟩
    split at hs
    · exact hfilter s hs
    · rcases List.mem_append.mp hs with h1 | h1
      · exact hfilter s h1
      · rw [List.mem_singleton.mp h1]
        constructor
        · exact le_refl now
        · simpa using hW

/-- Witness for C10 on a concrete trace: after calls on "a" and "b" and a
final call on "a" at time 3, the list stored for "a" has at most 2
entries. -/
theorem claim_C10_witness :
    (((RateLimiter.init 2 10).runCalls
        [("a", 0), ("b", 1), ("a", 3)]).requests "a").length ≤ 2 :=
  (claim_C10_state_invariant 2 10 (by norm_num) [("a", 0), ("b", 1)] "a" 3
    (by norm_num)).1 "a"

/-! ### Database rows (src/models.py) and collaborator data

Only the columns the authentication resolver reads are modelled. -/

structure UserRow where
  id : Nat
  email : String
  is_active : Bool
deriving DecidableEq

structure OAuthTokenRow where
  id : Nat
  user_id : Nat
  access_token : String
  refresh_token : Option String
  expires_at : ℚ
  created_at : ℚ
  is_revoked : Bool
deriving DecidableEq

structure UserApiKeyRow where
  id : Nat
  user_id : Nat
  api_key : String
  property_id : Option Nat
  is_active : Bool
  last_used_at : Option ℚ
deriving DecidableEq

structure PropertyRow where
  id : Nat
  user_id : Nat
  property_id : String
  is_active : Bool
  is_default : Bool
deriving DecidableEq

/-- The database session, modelled as the persisted row sets. -/
structure Db where
  users : List UserRow
  oauth_tokens : List OAuthTokenRow
  user_api_keys : List UserApiKeyRow
  properties : List PropertyRow
deriving DecidableEq

/-- The dict returned by the OAuth provider's refresh endpoint
(`oauth_handler.refresh_access_token`); `expires_in` carries the
`tokens.get("expires_in", 3600)` default when the key is absent, and a
successful refresh always carries an access token. -/
structure TokensDict where
  access_token : String
  refresh_token : Option String
  expires_in : ℚ
deriving DecidableEq

/-- Failure outcomes of the resolver (the raised `HTTPException`s,
identified by status code plus detail message). -/
inductive AuthError where
  | unauthorized (detail : String)
  | tooManyRequests (detail : String)
  | serviceUnavailable (detail : String)
deriving DecidableEq

/-- `AuthenticationResult` (src/services/auth_service.py lines 16–23). -/
structure AuthenticationResult where
  user_name : String
  user_type : String
  user_id : Option Nat
  ga4_property_id : Option String
  access_token : Option String
deriving DecidableEq

/-- The environment-derived configuration read by `AuthService.__init__`
(lines 53–58) together with the collaborating OAuth handler's
`enabled` flag. -/
structure AuthConfig where
  GA4_PROPERTY_ID : Option String
  ENABLE_OAUTH_MODE : Bool
  ENABLE_API_KEY_MODE : Bool
  API_KEYS : List (String × String)
  oauth_enabled : Bool
deriving DecidableEq

/-! ### Python string replace

`authorization.replace("Bearer ", "")` replaces every (non-overlapping,
left-to-right) occurrence of the pattern.  Implemented on character lists
with an explicit fuel argument (one unit per input character) so that the
definition reduces computationally. -/

def replaceFuel (pat rep : List Char) : Nat → List Char → List Char
  | _, [] => []
  | 0, s => s
  | Nat.succ fuel, c :: cs =>
    if pat.isPrefixOf (c :: cs) then
      rep ++ replaceFuel pat rep fuel ((c :: cs).drop pat.length)
    else c :: replaceFuel pat rep fuel cs

/-- Python's `s.replace(pat, rep)` for a non-empty pattern (the resolver
only ever uses the pattern `"Bearer "`; the empty-pattern corner of the
Python builtin is never exercised and is mapped to the identity). -/
def pyReplace (s pat rep : String) : String :=
  if pat = "" then s
  else String.mk (replaceFuel pat.data rep.data s.data.length s.data)

/-- Python's `s.startswith(pat)`. -/
def pyStartsWith (s pat : String) : Bool :=
  pat.data.isPrefixOf s.data

/-! ### src/oauth.py — `OAuthUserManager` -/

/-- `OAuthUserManager.save_oauth_token` (oauth.py lines 340–368): mark
every non-revoked token row of the user revoked, then insert a fresh
non-revoked row holding the new tokens.  The surrogate autoincrement id is
modelled by the current row count. -/
def save_oauth_token (db : Db) (user_id : Nat) (tokens : TokensDict) (now : ℚ) : Db :=
  let revoked := db.oauth_tokens.map fun t =>
    if t.user_id == user_id && !t.is_revoked then { t with is_revoked := true } else t
  { db with oauth_tokens := revoked ++
      [{ id := db.oauth_tokens.length + 1
         user_id := user_id
         access_token := tokens.access_token
         refresh_token := tokens.refresh_token
         expires_at := now + tokens.expires_in
         created_at := now
         is_revoked := false }] }

/-- `OAuthUserManager.refresh_user_token` (oauth.py lines 425–454).  The
query for the user's non-revoked rows that carry a refresh token goes
through `scalar_one_or_none`, which raises if more than one row matches
(`Except.error ()`, an exception escaping this function); the Python
recheck `if not token_record or not token_record.refresh_token` (line
438) treats an empty-string refresh token as missing (falsy) and returns
`None`; with a usable token the provider is asked to refresh — a provider
failure is caught inside this function and maps to `none` with the store
untouched; on success the new tokens are saved (prior rows revoked) and
committed. -/
def refresh_user_token (db : Db) (user_id : Nat)
    (provider : String → Option TokensDict) (now : ℚ) :
    Except Unit (Option String × Db) :=
  let candidates := db.oauth_tokens.filter fun t =>
    t.user_id == user_id && t.refresh_token.isSome && !t.is_revoked
  match candidates with
  | [] => .ok (none, db)
  | [t] =>
    match t.refresh_token with
    | none => .ok (none, db)
    | some rt =>
      if rt == "" then .ok (none, db)
      else
        match provider rt with
        | none => .ok (none, db)
        | some tokens => .ok (some tokens.access_token, save_oauth_token db user_id tokens now)
  | _ => .error ()

/-! ### src/services/auth_service.py — `AuthService` -/

/-- The joined lookup of `_verify_oauth_token` (lines 144–151): the first
(token, active user) pair whose stored access token equals the presented
token and whose row is not revoked.  `.first()` row order is modelled as
token-row order. -/
def findUserToken (db : Db) (token : String) : Option (UserRow × OAuthTokenRow) :=
  db.oauth_tokens.findSome? fun t =>
    if t.access_token == token && !t.is_revoked then
      (db.users.find? fun u => u.id == t.user_id && u.is_active).map fun u => (u, t)
    else none

/-- `AuthService._get_user_default_property` (lines 281–307): prefer the
active default property; `scalar_one_or_none` raises when several
active defaults exist, and the blanket handler then returns `None`; with
no active default fall back to the first active property (`limit(1)`). -/
def get_user_default_property (db : Db) (user_id : Nat) : Option String :=
  let defaults := db.properties.filter fun p =>
    p.user_id == user_id && p.is_active && p.is_default
  match defaults with
  | [p] => some p.property_id
  | [] =>
    (db.properties.find? fun p => p.user_id == user_id && p.is_active).map
      fun p => p.property_id
  | _ => none

/-- The rate-limit check, property resolution and success result of
`_verify_oauth_token` (lines 174–192), shared by the fresh-token and
refreshed-token paths. -/
def verifyOAuthRest (rl : RateLimiter) (db : Db) (now : ℚ)
    (user : UserRow) (token : String) :
    Except AuthError AuthenticationResult × RateLimiter × Db :=
  let step := rl.is_allowed ("oauth_" ++ toString user.id) now
  if step.1 then
    (.ok { user_name := user.email
           user_type := "oauth"
           user_id := some user.id
           ga4_property_id := get_user_default_property db user.id
           access_token := some token }, step.2, db)
  else (.error (.tooManyRequests "請求頻率過高，請稍後再試"), step.2, db)

/-- `AuthService._verify_oauth_token` (lines 137–201).  `now` is the
clock observed by this request (both `time.time()` and
`datetime.utcnow()` are drawn from it).  `provider` is the OAuth
provider's refresh endpoint.  An exception escaping
`refresh_user_token` reaches the blanket `except Exception` handler and
becomes the generic 401.  The guard `if not new_access_token` (line 167)
treats an empty-string refreshed token as missing (falsy) and fails
401. -/
def verify_oauth_token (rl : RateLimiter) (db : Db)
    (provider : String → Option TokensDict) (now : ℚ) (authorization : String) :
    Except AuthError AuthenticationResult × RateLimiter × Db :=
  let token := pyReplace authorization "Bearer " ""
  match findUserToken db token with
  | none => (.error (.unauthorized "無效的 OAuth token"), rl, db)
  | some (user, oauth_token) =>
    if oauth_token.expires_at < now then
      match refresh_user_token db user.id provider now with
      | .error _ => (.error (.unauthorized "OAuth 認證處理失敗"), rl, db)
      | .ok (none, db1) => (.error (.unauthorized "Token 已過期，請重新授權"), rl, db1)
      | .ok (some newTok, db1) =>
        if newTok == "" then (.error (.unauthorized "Token 已過期，請重新授權"), rl, db1)
        else verifyOAuthRest rl db1 now user newTok
    else verifyOAuthRest rl db now user token

/-- The per-user key lookup of `_verify_api_key` (lines 210–223): first
active key row matching the raw key, joined to its active owning user and
outer-joined (no activity filter) to the bound property row. -/
def findUserApiKey (db : Db) (key : String) :
    Option (UserApiKeyRow × UserRow × Option PropertyRow) :=
  db.user_api_keys.findSome? fun k =>
    if k.api_key == key && k.is_active then
      (db.users.find? fun u => u.id == k.user_id && u.is_active).map fun u =>
        (k, u, k.property_id.bind fun pid => db.properties.find? fun p => p.id == pid)
    else none

/-- The static-key half of `_verify_api_key` (lines 255–279). -/
def verifyStaticApiKey (cfg : AuthConfig) (rl : RateLimiter)
    (x_api_key : String) (now : ℚ) :
    Except AuthError AuthenticationResult × RateLimiter :=
  match cfg.API_KEYS.lookup x_api_key with
  | some user_name =>
    let step := rl.is_allowed ("api_key_" ++ x_api_key) now
    if step.1 then
      (.ok { user_name := user_name
             user_type := "api_key"
             user_id := none
             ga4_property_id := cfg.GA4_PROPERTY_ID
             access_token := none }, step.2)
    else (.error (.tooManyRequests "請求頻率過高，請稍後再試"), step.2)
  | none => (.error (.unauthorized "無效的API Key"), rl)

/-- `AuthService._verify_api_key` (lines 203–279).  The per-user branch
sits inside `try: ... except Exception`, and FastAPI's `HTTPException`
derives from `Exception`: the `raise HTTPException(429)` at line 230 is
therefore swallowed by the handler at line 252 and control falls through
to the static-key check (with the limiter state already pruned by the
rejected check).  The embedding reproduces that fall-through literally. -/
def verify_api_key (cfg : AuthConfig) (rl : RateLimiter) (db : Option Db)
    (x_api_key : String) (now : ℚ) :
    Except AuthError AuthenticationResult × RateLimiter × Option Db :=
  match db with
  | some d =>
    match findUserApiKey d x_api_key with
    | some (user_api_key, user, property_obj) =>
      let step := rl.is_allowed ("user_api_key_" ++ toString user.id) now
      if step.1 then
        let d1 := { d with user_api_keys := d.user_api_keys.map fun r =>
          if r == user_api_key then { r with last_used_at := some now } else r }
        (.ok { user_name := user.email
               user_type := "user_api_key"
               user_id := some user.id
               ga4_property_id := (match property_obj with
                 | some p => some p.property_id
                 | none => cfg.GA4_PROPERTY_ID)
               access_token := none }, step.2, some d1)
      else
        let rest := verifyStaticApiKey cfg step.2 x_api_key now
        (rest.1, rest.2, some d)
    | none =>
      let rest := verifyStaticApiKey cfg rl x_api_key now
      (rest.1, rest.2, some d)
  | none =>
    let rest := verifyStaticApiKey cfg rl x_api_key now
    (rest.1, rest.2, none)

/-- The no-credential tail of `verify_authentication` (lines 118–135). -/
def noCredential (cfg : AuthConfig) (rl : RateLimiter) (db : Option Db) :
    Except AuthError AuthenticationResult × RateLimiter × Option Db :=
  let missing_auth :=
    (if cfg.ENABLE_OAUTH_MODE && cfg.oauth_enabled
      then ["Authorization Bearer token"] else []) ++
    (if cfg.ENABLE_API_KEY_MODE then ["X-API-Key header"] else [])
  if missing_auth.isEmpty then
    (.error (.serviceUnavailable "服務未配置認證方式"), rl, db)
  else
    (.error (.unauthorized ("需要認證：" ++ String.intercalate " 或 " missing_auth)), rl, db)

/-- The `elif` / `else` tail of `verify_authentication` (lines 114–135):
API-key resolution requires a truthy (non-empty) `X-API-Key` header and
the API-key mode toggle. -/
def apiKeyOrFail (cfg : AuthConfig) (rl : RateLimiter) (db : Option Db)
    (x_api_key : Option String) (now : ℚ) :
    Except AuthError AuthenticationResult × RateLimiter × Option Db :=
  match x_api_key with
  | some k =>
    if !(k == "") && cfg.ENABLE_API_KEY_MODE then verify_api_key cfg rl db k now
    else noCredential cfg rl db
  | none => noCredential cfg rl db

/-- `AuthService.verify_authentication` (lines 99–135): the OAuth branch
requires the `Authorization` header to start with `"Bearer "`, both OAuth
toggles, and a database session; otherwise API-key resolution is
attempted, and failing that the no-credential tail runs. -/
def verify_authentication (cfg : AuthConfig) (rl : RateLimiter) (db : Option Db)
    (provider : String → Option TokensDict) (now : ℚ)
    (x_api_key authorization : Option String) :
    Except AuthError AuthenticationResult × RateLimiter × Option Db :=
  match authorization, db with
  | some a, some d =>
    if pyStartsWith a "Bearer " && cfg.ENABLE_OAUTH_MODE && cfg.oauth_enabled then
      let r := verify_oauth_token rl d provider now a
      (r.1, r.2.1, some r.2.2)
    else apiKeyOrFail cfg rl (some d) x_api_key now
  | some _, none => apiKeyOrFail cfg rl none x_api_key now
  | none, _ => apiKeyOrFail cfg rl db x_api_key now

/-! ### Claims about the authentication resolver -/

/-- **C1.**  OAuth-branch priority: for any request whose `Authorization`
header begins with `"Bearer "`, with OAuth mode enabled, the OAuth handler
configured, a database session present, and a valid (stored, non-revoked,
active-user, unexpired) bearer token that passes the rate limiter, the
resolver resolves via the OAuth path and returns an identity of kind
`"oauth"` — for EVERY value of the `X-API-Key` header, i.e. it never falls
through to API-key resolution even when an API key header is present. -/
theorem claim_C1_oauth_priority (cfg : AuthConfig) (rl : RateLimiter) (d : Db)
    (provider : String → Option TokensDict) (now : ℚ) (a : String)
    (u : UserRow) (ot : OAuthTokenRow)
    (hdr : pyStartsWith a "Bearer " = true)
    (hoauth : cfg.ENABLE_OAUTH_MODE = true)
    (hconf : cfg.oauth_enabled = true)
    (hfind : findUserToken d (pyReplace a "Bearer " "") = some (u, ot))
    (hfresh : ¬ ot.expires_at < now)
    (hrate : (rl.is_allowed ("oauth_" ++ toString u.id) now).1 = true) :
    ∀ x_api_key : Option String,
      verify_authentication cfg rl (some d) provider now x_api_key (some a) =
        (.ok { user_name := u.email
               user_type := "oauth"
               user_id := some u.id
               ga4_property_id := get_user_default_property d u.id
               access_token := some (pyReplace a "Bearer " "") },
          (rl.is_allowed ("oauth_" ++ toString u.id) now).2, some d) := by
  intro x_api_key
  simp only [verify_authentication, hdr, hoauth, hconf, Bool.and_self, if_true,
    verify_oauth_token, hfind, if_neg hfresh, verifyOAuthRest, hrate]

/-- Witness for C1: a concrete request carrying both headers resolves via
OAuth (kind `"oauth"`), ignoring the `X-API-Key` header. -/
theorem claim_C1_witness :
    verify_authentication
        ⟨some "pX", true, true, [("sk", "alias")], true⟩
        ⟨200, 600, fun _ => []⟩
        (some ⟨[⟨1, "u@e", true⟩], [⟨1, 1, "tok1", some "rt1", 100, 0, false⟩], [], []⟩)
        (fun _ => none) 50 (some "sk") (some "Bearer tok1") =
      (.ok { user_name := "u@e"
             user_type := "oauth"
             user_id := some 1
             ga4_property_id := get_user_default_property
               ⟨[⟨1, "u@e", true⟩], [⟨1, 1, "tok1", some "rt1", 100, 0, false⟩], [], []⟩ 1
             access_token := some (pyReplace "Bearer tok1" "Bearer " "") },
        ((⟨200, 600, fun _ => []⟩ : RateLimiter).is_allowed ("oauth_" ++ toString 1) 50).2,
        some ⟨[⟨1, "u@e", true⟩], [⟨1, 1, "tok1", some "rt1", 100, 0, false⟩], [], []⟩) :=
  claim_C1_oauth_priority
    ⟨some "pX", true, true, [("sk", "alias")], true⟩
    ⟨200, 600, fun _ => []⟩
    ⟨[⟨1, "u@e", true⟩], [⟨1, 1, "tok1", some "rt1", 100, 0, false⟩], [], []⟩
    (fun _ => none) 50 "Bearer tok1"
    ⟨1, "u@e", true⟩ ⟨1, 1, "tok1", some "rt1", 100, 0, false⟩
    (by decide) (by decide) (by decide) (by rfl) (by norm_num) (by decide)
    (some "sk")

/-- **C5.**  No-credential requests: for EVERY request carrying no usable
credential — any `Authorization` header present is not handled by the
OAuth branch (not a `"Bearer "` header, or OAuth mode off, or the handler
unconfigured, or no database session), and any `X-API-Key` header present
is not handled by the API-key branch (empty, or API-key mode off) — the
resolver fails `ServiceUnavailable` when no authentication mode is
enabled (OAuth counts as enabled only when the mode toggle is set AND the
OAuth subsystem reports itself configured, per §4.2 branch 1), and
otherwise fails `Unauthorized` with a message naming exactly the enabled
credential forms. -/
theorem claim_C5_no_credential (cfg : AuthConfig) (rl : RateLimiter) (db : Option Db)
    (provider : String → Option TokensDict) (now : ℚ)
    (x_api_key authorization : Option String)
    (hA : ∀ a, authorization = some a →
      (pyStartsWith a "Bearer " && cfg.ENABLE_OAUTH_MODE && cfg.oauth_enabled) = false ∨
        db = none)
    (hK : ∀ k, x_api_key = some k → (!(k == "") && cfg.ENABLE_API_KEY_MODE) = false) :
    ((cfg.ENABLE_OAUTH_MODE && cfg.oauth_enabled) = false →
      cfg.ENABLE_API_KEY_MODE = false →
      verify_authentication cfg rl db provider now x_api_key authorization =
        (.error (.serviceUnavailable "服務未配置認證方式"), rl, db)) ∧
    ((cfg.ENABLE_OAUTH_MODE && cfg.oauth_enabled) = true →
      cfg.ENABLE_API_KEY_MODE = true →
      verify_authentication cfg rl db provider now x_api_key authorization =
        (.error (.unauthorized
          "需要認證：Authorization Bearer token 或 X-API-Key header"), rl, db)) ∧
    ((cfg.ENABLE_OAUTH_MODE && cfg.oauth_enabled) = true →
      cfg.ENABLE_API_KEY_MODE = false →
      verify_authentication cfg rl db provider now x_api_key authorization =
        (.error (.unauthorized "需要認證：Authorization Bearer token"), rl, db)) ∧
    ((cfg.ENABLE_OAUTH_MODE && cfg.oauth_enabled) = false →
      cfg.ENABLE_API_KEY_MODE = true →
      verify_authentication cfg rl db provider now x_api_key authorization =
        (.error (.unauthorized "需要認證：X-API-Key header"), rl, db)) := by
  have hapi : apiKeyOrFail cfg rl db x_api_key now = noCredential cfg rl db := by
    cases x_api_key with
    | none => rfl
    | some k =>
      simp only [apiKeyOrFail, hK k rfl, Bool.false_eq_true, if_false]
  have hred : verify_authentication cfg rl db provider now x_api_key authorization =
      noCredential cfg rl db := by
    cases authorization with
    | none =>
      rw [← hapi]
      cases db <;> rfl
    | some a =>
      cases db with
      | none =>
        rw [← hapi]
        rfl
      | some d =>
        rcases hA a rfl with hfalse | hnone
        · rw [← hapi]
          simp only [verify_authentication, hfalse, Bool.false_eq_true, if_false]
        · exact absurd hnone (by simp)
  rw [hred]
  refine ⟨fun h1 h2 => ?_, fun h1 h2 => ?_, fun h1 h2 => ?_, fun h1 h2 => ?_⟩ <;>
    simp only [noCredential, h1, h2, if_true, if_false, List.nil_append,
      List.append_nil, List.isEmpty_nil, List.isEmpty_cons, String.intercalate] <;>
    rfl

/-- Witness for C5: both modes enabled and configured, a non-Bearer
`Authorization` header and an empty (falsy) `X-API-Key`: no usable
credential, so the 401 message lists both accepted credential forms. -/
theorem claim_C5_witness :
    verify_authentication ⟨some "p", true, true, [("k", "a")], true⟩
        ⟨200, 600, fun _ => []⟩ (some ⟨[], [], [], []⟩) (fun _ => none) 0
        (some "") (some "Basic xyz") =
      (.error (.unauthorized
        "需要認證：Authorization Bearer token 或 X-API-Key header"),
        ⟨200, 600, fun _ => []⟩, some ⟨[], [], [], []⟩) :=
  (claim_C5_no_credential ⟨some "p", true, true, [("k", "a")], true⟩
    ⟨200, 600, fun _ => []⟩ (some ⟨[], [], [], []⟩) (fun _ => none) 0
    (some "") (some "Basic xyz")
    (by
      intro a ha
      obtain rfl : a = "Basic xyz" := (Option.some.inj ha).symm
      exact Or.inl (by decide))
    (by
      intro k hk
      obtain rfl : k = "" := (Option.some.inj hk).symm
      decide)).2.1 (by decide) (by decide)

/-- **C2** (code bug).  A request whose `X-API-Key` matches an active
per-user key (active owning user) and whose per-user rate-limit key is
rejected does NOT fail with `TooManyRequests`: the
`raise HTTPException(429)` at auth_service.py line 230 sits inside
`try: ... except Exception` (line 252), and `HTTPException` derives from
`Exception`, so the 429 is swallowed and control falls through to the
static-key check, which here fails with `Unauthorized`
("无效的API Key" / invalid API key).  Concrete failing input: limiter
`max_requests = 1` with `"user_api_key_1"` having a fresh timestamp (so
the check at time 10 rejects, second conjunct), static key table empty. -/
theorem claim_C2_code_bug_rate_limited_user_key :
    (verify_api_key
        ⟨some "p-default", true, true, [], false⟩
        ⟨1, 600, fun k => if k == "user_api_key_1" then [9] else []⟩
        (some ⟨[⟨1, "u1@example.com", true⟩], [],
               [⟨1, 1, "k1", none, true, none⟩], []⟩)
        "k1" 10).1 = .error (.unauthorized "無效的API Key") ∧
    ((⟨1, 600, fun k => if k == "user_api_key_1" then [9] else []⟩ :
        RateLimiter).is_allowed "user_api_key_1" 10).1 = false := by
  constructor
  · norm_num [verify_api_key, findUserApiKey, verifyStaticApiKey,
      RateLimiter.is_allowed, List.findSome?,
      show ("user_api_key_" ++ toString (1 : Nat)) = "user_api_key_1" by decide]
  · norm_num [RateLimiter.is_allowed]

/-- **C6** (code bug).  A request whose `X-API-Key` matches an active
per-user key (active owning user) can successfully resolve to an identity
of kind `"api_key"` (the static-key kind), not `"user_key"`, and the
static key table IS consulted: when the per-user rate-limit key is
rejected, the swallowed 429 (see C2) falls through to the static-key
check, and if the same secret is also configured as a static key the
resolver returns the static identity.  Concrete failing input: the same
key `"k1"` present in both tables, per-user limiter key exhausted, static
limiter key fresh. -/
theorem claim_C6_code_bug_static_fallthrough :
    (verify_api_key
        ⟨some "p-default", true, true, [("k1", "joey")], false⟩
        ⟨1, 600, fun k => if k == "user_api_key_1" then [9] else []⟩
        (some ⟨[⟨1, "u1@example.com", true⟩], [],
               [⟨1, 1, "k1", none, true, none⟩], []⟩)
        "k1" 10).1 =
      .ok { user_name := "joey"
            user_type := "api_key"
            user_id := none
            ga4_property_id := some "p-default"
            access_token := none } := by
  norm_num [verify_api_key, findUserApiKey, verifyStaticApiKey,
    RateLimiter.is_allowed, List.findSome?, List.lookup, Function.update,
    show ("user_api_key_" ++ toString (1 : Nat)) = "user_api_key_1" by decide,
    show ("api_key_" ++ "k1") = "api_key_k1" by decide,
    show ("api_key_k1" : String) ≠ "user_api_key_1" by decide]

/-- **C7.**  Expired token with a valid refresh token: when the presented
bearer token matches a non-revoked stored token of an active user, the
token is expired, the user's only non-revoked refresh-carrying row is that
token (with a non-empty refresh token — Python treats `""` as falsy), the
provider accepts the refresh with a non-empty access token, and the rate
limiter admits the user, then resolution succeeds with the refreshed
access token as the
returned credential, the prior token row is marked revoked in the saved
store, and exactly one non-revoked token row exists for that user
afterward. -/
theorem claim_C7_refresh (rl : RateLimiter) (d : Db)
    (provider : String → Option TokensDict) (now : ℚ) (a : String)
    (u : UserRow) (ot : OAuthTokenRow) (rt : String) (tkns : TokensDict)
    (hfind : findUserToken d (pyReplace a "Bearer " "") = some (u, ot))
    (hexp : ot.expires_at < now)
    (hrt : ot.refresh_token = some rt)
    (hrtne : (rt == "") = false)
    (hone : d.oauth_tokens.filter
        (fun t => t.user_id == u.id && t.refresh_token.isSome && !t.is_revoked) = [ot])
    (hprov : provider rt = some tkns)
    (hakne : (tkns.access_token == "") = false)
    (hrate : (rl.is_allowed ("oauth_" ++ toString u.id) now).1 = true) :
    verify_oauth_token rl d provider now a =
      (.ok { user_name := u.email
             user_type := "oauth"
             user_id := some u.id
             ga4_property_id :=
               get_user_default_property (save_oauth_token d u.id tkns now) u.id
             access_token := some tkns.access_token },
        (rl.is_allowed ("oauth_" ++ toString u.id) now).2,
        save_oauth_token d u.id tkns now) ∧
    { ot with is_revoked := true } ∈ (save_oauth_token d u.id tkns now).oauth_tokens ∧
    ((save_oauth_token d u.id tkns now).oauth_tokens.filter
        (fun t => t.user_id == u.id && !t.is_revoked)).length = 1 := by
  have hmem : ot ∈ d.oauth_tokens.filter
      (fun t => t.user_id == u.id && t.refresh_token.isSome && !t.is_revoked) := by
    rw [hone]
    exact List.mem_singleton_self ot
  have hprops := List.mem_filter.mp hmem
  have huid : ot.user_id = u.id := by
    have := hprops.2
    simp only [Bool.and_eq_true, beq_iff_eq] at this
    exact this.1.1
  have hrev : ot.is_revoked = false := by
    have := hprops.2
    simp only [Bool.and_eq_true, Bool.not_eq_true'] at this
    exact this.2
  refine ⟨?_, ?_, ?_⟩
  · simp only [verify_oauth_token, hfind, if_pos hexp, refresh_user_token, hone,
      hrt, hrtne, hprov, hakne, verifyOAuthRest, hrate, Bool.false_eq_true,
      if_false, if_true]
  · simp only [save_oauth_token, List.mem_append]
    refine Or.inl (List.mem_map.mpr ⟨ot, hprops.1, ?_⟩)
    simp [huid, hrev]
  · simp only [save_oauth_token, List.filter_append]
    have hnil : (d.oauth_tokens.map fun t =>
        if t.user_id == u.id && !t.is_revoked then { t with is_revoked := true }
        else t).filter (fun t => t.user_id == u.id && !t.is_revoked) = [] := by
      rw [List.filter_eq_nil_iff]
      intro t ht
      obtain ⟨x, hx, rfl⟩ := List.mem_map.mp ht
      by_cases hc : (x.user_id == u.id && !x.is_revoked) = true
      · simp [hc]
      · simp [if_neg hc, hc]
    rw [hnil]
    simp

/-- Witness for C7 at a concrete store: after the resolution the prior
token row appears revoked in the saved store. -/
theorem claim_C7_witness :
    ({ id := 1, user_id := 1, access_token := "tok1", refresh_token := some "rt1",
        expires_at := 40, created_at := 0, is_revoked := true } : OAuthTokenRow) ∈
      (save_oauth_token
        ⟨[⟨1, "u@e", true⟩], [⟨1, 1, "tok1", some "rt1", 40, 0, false⟩], [], []⟩
        1 ⟨"tok2", some "rt1", 3600⟩ 50).oauth_tokens :=
  (claim_C7_refresh ⟨200, 600, fun _ => []⟩
    ⟨[⟨1, "u@e", true⟩], [⟨1, 1, "tok1", some "rt1", 40, 0, false⟩], [], []⟩
    (fun r => if r == "rt1" then some ⟨"tok2", some "rt1", 3600⟩ else none)
    50 "Bearer tok1" ⟨1, "u@e", true⟩ ⟨1, 1, "tok1", some "rt1", 40, 0, false⟩
    "rt1" ⟨"tok2", some "rt1", 3600⟩
    (by rfl) (by norm_num) (by rfl) (by decide) (by rfl) (by rfl) (by decide)
    (by decide)).2.1

/-! ### src/ga4_extensions.py — `GA4DataService` response shaping

Each query function receives the rows of the external GA4 Data API
response (the oracle collaborator) and reshapes them into plain records.
The SDK delivers dimension values as strings and metric values as numeric
strings; the numeric parses (`int(...)`, `float(...)`) are modelled by
rational metric values with `metricInt` as the integer reading, and
Python's `round(x, 2)` by rounding to 2 decimal digits (`roundTo2`; its
tie-breaking on exact halves differs from the float builtin, which no
claim exercises). -/

structure GA4Row where
  dimension_values : List String
  metric_values : List ℚ
deriving DecidableEq

def GA4Row.dim (r : GA4Row) (i : Nat) (default : String) : String :=
  r.dimension_values.getD i default

def GA4Row.metricFloat (r : GA4Row) (i : Nat) : ℚ :=
  r.metric_values.getD i 0

def GA4Row.metricInt (r : GA4Row) (i : Nat) : ℤ :=
  (r.metricFloat i).floor

def roundTo2 (x : ℚ) : ℚ :=
  round (x * 100) / 100

/-- `GA4DataService._calculate_performance_grade` (lines 685–696). -/
def calculate_performance_grade (bounce_rate engagement_rate : ℚ) : String :=
  if bounce_rate < 25 ∧ engagement_rate > 70 then "A+ (優秀)"
  else if bounce_rate < 40 ∧ engagement_rate > 60 then "A (良好)"
  else if bounce_rate < 55 ∧ engagement_rate > 45 then "B (一般)"
  else if bounce_rate < 70 ∧ engagement_rate > 30 then "C (需改善)"
  else "D (急需優化)"

structure TopPageEntry where
  pagePath : String
  pageTitle : String
  fullUrl : String
  pageViews : ℤ
  totalUsers : ℤ
  sessions : ℤ
  avgSessionDuration : ℚ
  bounceRate : ℚ
deriving DecidableEq

/-- `GA4DataService.get_top_pages_analytics` (lines 162–199): one record
per response row, empty response giving the empty list. -/
def get_top_pages_analytics (rows : List GA4Row) : List TopPageEntry :=
  rows.map fun row =>
    { pagePath := row.dim 0 ""
      pageTitle := row.dim 1 "未知標題"
      fullUrl := row.dim 2 ""
      pageViews := row.metricInt 0
      totalUsers := row.metricInt 1
      sessions := row.metricInt 2
      avgSessionDuration := roundTo2 (row.metricFloat 3)
      bounceRate := roundTo2 (row.metricFloat 4 * 100) }

structure TrafficSourceEntry where
  channelGroup : String
  source : String
  medium : String
  sessions : ℤ
  totalUsers : ℤ
  newUsers : ℤ
  bounceRate : ℚ
deriving DecidableEq

/-- `GA4DataService.get_traffic_sources` (lines 201–236). -/
def get_traffic_sources (rows : List GA4Row) : List TrafficSourceEntry :=
  rows.map fun row =>
    { channelGroup := row.dim 0 ""
      source := row.dim 1 ""
      medium := row.dim 2 ""
      sessions := row.metricInt 0
      totalUsers := row.metricInt 1
      newUsers := row.metricInt 2
      bounceRate := roundTo2 (row.metricFloat 3 * 100) }

structure DeviceEntry where
  deviceCategory : String
  operatingSystem : String
  browser : String
  totalUsers : ℤ
  sessions : ℤ
  bounceRate : ℚ
  avgSessionDuration : ℚ
deriving DecidableEq

/-- `GA4DataService.get_device_analytics` (lines 291–326). -/
def get_device_analytics (rows : List GA4Row) : List DeviceEntry :=
  rows.map fun row =>
    { deviceCategory := row.dim 0 ""
      operatingSystem := row.dim 1 ""
      browser := row.dim 2 ""
      totalUsers := row.metricInt 0
      sessions := row.metricInt 1
      bounceRate := roundTo2 (row.metricFloat 2 * 100)
      avgSessionDuration := roundTo2 (row.metricFloat 3) }

structure PageViewsPage where
  path : String
  title : String
  pageViews : ℤ
  sessions : ℤ
  avgSessionDuration : ℚ
  bounceRate : ℚ
deriving DecidableEq

structure PageViewsSummary where
  totalPageViews : ℤ
  totalUniqueViews : ℤ
  totalPages : Nat
deriving DecidableEq

structure PageViewsAnalytics where
  summary : PageViewsSummary
  topPages : List PageViewsPage
deriving DecidableEq

/-- `GA4DataService.get_pageviews_analytics` (lines 238–289): empty
response rows give a zeroed summary and an empty page list. -/
def get_pageviews_analytics (rows : List GA4Row) : PageViewsAnalytics :=
  let pages := rows.map fun row =>
    { path := row.dim 0 ""
      title := (if row.dim 1 "" = "" then "未知標題" else row.dim 1 "")
      pageViews := row.metricInt 0
      sessions := row.metricInt 1
      avgSessionDuration := roundTo2 (row.metricFloat 2)
      bounceRate := roundTo2 (row.metricFloat 3 * 100) }
  { summary := { totalPageViews := (rows.map fun r => r.metricInt 0).sum
                 totalUniqueViews := (rows.map fun r => r.metricInt 1).sum
                 totalPages := pages.length }
    topPages := pages }

structure NameUsersEntry where
  name : String
  users : ℤ
deriving DecidableEq

structure RealtimeOverview where
  activeUsers : ℤ
  pageViews : ℤ
  events : ℤ
  topCountries : List NameUsersEntry
  deviceBreakdown : List NameUsersEntry
deriving DecidableEq

/-- `GA4DataService.get_realtime_overview` (lines 47–99): sums the three
metrics over all rows, collects one entry per first-seen country and per
first-seen device, and returns the countries stably sorted by descending
users, truncated to 5 (`sorted(..., reverse=True)[:5]`). -/
def get_realtime_overview (rows : List GA4Row) : RealtimeOverview :=
  let countries := rows.foldl (fun acc row =>
    let country := row.dim 0 ""
    if (acc.map fun c => c.name).contains country then acc
    else acc ++ [{ name := country, users := row.metricInt 0 }]) []
  let devices := rows.foldl (fun acc row =>
    let device := row.dim 1 ""
    if (acc.map fun c => c.name).contains device then acc
    else acc ++ [{ name := device, users := row.metricInt 0 }]) []
  { activeUsers := (rows.map fun r => r.metricInt 0).sum
    pageViews := (rows.map fun r => r.metricInt 1).sum
    events := (rows.map fun r => r.metricInt 2).sum
    topCountries := (countries.mergeSort fun a b => b.users ≤ a.users).take 5
    deviceBreakdown := devices }

structure RealtimePageEntry where
  pagePath : String
  pageTitle : String
  activeUsers : ℤ
  pageViews : ℤ
deriving DecidableEq

structure RealtimeScreenEntry where
  screenName : String
  note : String
  activeUsers : ℤ
  pageViews : ℤ
deriving DecidableEq

/-- The two response shapes of `get_realtime_top_pages`: path-keyed
records from the first query, or screen-name records from the fallback
query. -/
inductive RealtimeTopPages where
  | byPath (pages : List RealtimePageEntry)
  | byScreen (pages : List RealtimeScreenEntry)
deriving DecidableEq

/-- `GA4DataService.get_realtime_top_pages` (lines 101–160): the
path-dimension query is attempted first — `firstAttempt = none` models it
raising (caught at line 131); its rows are returned only when NON-empty
(the `return pages` at line 130 sits inside `if response.rows:`), and
otherwise the fallback screen-name query's rows are shaped and
returned. -/
def get_realtime_top_pages (firstAttempt : Option (List GA4Row))
    (fallbackRows : List GA4Row) : RealtimeTopPages :=
  let fallback := RealtimeTopPages.byScreen (fallbackRows.map fun row =>
    { screenName := row.dim 0 ""
      note := "實時API限制：無法提供完整URL路徑"
      activeUsers := row.metricInt 0
      pageViews := row.metricInt 1 })
  match firstAttempt with
  | some [] => fallback
  | some (r :: rs) => .byPath ((r :: rs).map fun row =>
    { pagePath := row.dim 0 ""
      pageTitle := row.dim 1 "未知標題"
      activeUsers := row.metricInt 0
      pageViews := row.metricInt 1 })
  | none => fallback

structure GeoEntry where
  country : String
  city : String
  totalUsers : ℤ
  sessions : ℤ
  pageViews : ℤ
deriving DecidableEq

/-- `GA4DataService.get_geographic_data` (lines 328–359). -/
def get_geographic_data (rows : List GA4Row) : List GeoEntry :=
  rows.map fun row =>
    { country := row.dim 0 ""
      city := row.dim 1 ""
      totalUsers := row.metricInt 0
      sessions := row.metricInt 1
      pageViews := row.metricInt 2 }

structure SearchTermEntry where
  searchTerm : String
  searchPage : String
  totalUsers : ℤ
  sessions : ℤ
  pageViews : ℤ
  avgSessionDuration : ℚ
deriving DecidableEq

/-- `GA4DataService.get_search_terms` (lines 361–395). -/
def get_search_terms (rows : List GA4Row) : List SearchTermEntry :=
  rows.map fun row =>
    { searchTerm := row.dim 0 ""
      searchPage := row.dim 1 ""
      totalUsers := row.metricInt 0
      sessions := row.metricInt 1
      pageViews := row.metricInt 2
      avgSessionDuration := roundTo2 (row.metricFloat 3) }

structure PagePerformanceEntry where
  pagePath : String
  pageTitle : String
  deviceCategory : String
  avgSessionDuration : ℚ
  bounceRate : ℚ
  pageViews : ℤ
  engagementRate : ℚ
  sessionsPerUser : ℚ
deriving DecidableEq

structure PerformanceSummary where
  totalPagesAnalyzed : Nat
  avgBounceRate : ℚ
  avgEngagementRate : ℚ
  performanceGrade : String
deriving DecidableEq

structure PerformanceMetrics where
  summary : PerformanceSummary
  pagePerformance : List PagePerformanceEntry
deriving DecidableEq

/-- `GA4DataService.get_performance_metrics` (lines 397–458): per-row
records plus overall averages (rounded, zero when no rows) from which the
performance grade is computed. -/
def get_performance_metrics (rows : List GA4Row) : PerformanceMetrics :=
  let total_pages := rows.length
  let avg_bounce := if 0 < total_pages
    then roundTo2 ((rows.map fun r => r.metricFloat 1 * 100).sum / (total_pages : ℚ))
    else 0
  let avg_engagement := if 0 < total_pages
    then roundTo2 ((rows.map fun r => r.metricFloat 3 * 100).sum / (total_pages : ℚ))
    else 0
  { summary := { totalPagesAnalyzed := total_pages
                 avgBounceRate := avg_bounce
                 avgEngagementRate := avg_engagement
                 performanceGrade := calculate_performance_grade avg_bounce avg_engagement }
    pagePerformance := rows.map fun row =>
      { pagePath := row.dim 0 ""
        pageTitle := row.dim 1 "未知標題"
        deviceCategory := row.dim 2 "未知設備"
        avgSessionDuration := roundTo2 (row.metricFloat 0)
        bounceRate := roundTo2 (row.metricFloat 1 * 100)
        pageViews := row.metricInt 2
        engagementRate := roundTo2 (row.metricFloat 3 * 100)
        sessionsPerUser := roundTo2 (row.metricFloat 4) } }

structure DailyEntry where
  date : String
  pageViews : ℤ
  users : ℤ
  sessions : ℤ
  avgSessionDuration : ℚ
  bounceRate : ℚ
  engagementRate : ℚ
  newUsers : ℤ
deriving DecidableEq

structure SinglePageSummary where
  totalPageViews : ℤ
  totalUsers : ℤ
  totalSessions : ℤ
  newUsers : ℤ
  avgBounceRate : ℚ
  avgEngagementRate : ℚ
  avgSessionDuration : ℚ
  performanceGrade : String
deriving DecidableEq

structure PageSourceEntry where
  channelGroup : String
  source : String
  medium : String
  sessions : ℤ
  users : ℤ
  pageViews : ℤ
deriving DecidableEq

structure PageDeviceEntry where
  deviceCategory : String
  operatingSystem : String
  users : ℤ
  sessions : ℤ
  pageViews : ℤ
deriving DecidableEq

/-- `GA4DataService._get_page_traffic_sources` (lines 591–637). -/
def get_page_traffic_sources (rows : List GA4Row) : List PageSourceEntry :=
  rows.map fun row =>
    { channelGroup := row.dim 0 ""
      source := row.dim 1 ""
      medium := row.dim 2 ""
      sessions := row.metricInt 0
      users := row.metricInt 1
      pageViews := row.metricInt 2 }

/-- `GA4DataService._get_page_device_breakdown` (lines 639–683). -/
def get_page_device_breakdown (rows : List GA4Row) : List PageDeviceEntry :=
  rows.map fun row =>
    { deviceCategory := row.dim 0 ""
      operatingSystem := row.dim 1 ""
      users := row.metricInt 0
      sessions := row.metricInt 1
      pageViews := row.metricInt 2 }

/-- The result values of `get_single_page_analytics`: either the
error-describing "not found" record (the dict carrying the `"error"` key,
lines 512–522) or the full page-data record. -/
inductive SinglePageData where
  | notFoundData (err : String) (pagePath : String) (dateRange : String)
      (suggestions : List String)
  | found (pagePath : String) (pageTitle : String) (dateRange : String)
      (summary : SinglePageSummary) (dailyBreakdown : List DailyEntry)
      (trafficSources : List PageSourceEntry)
      (deviceBreakdown : List PageDeviceEntry)
deriving DecidableEq

/-- The path normalisation at lines 468–470 (`page_path` is taken after
the optional urlparse step applied to absolute URLs, line 463–466). -/
def ensureLeadingSlash (p : String) : String :=
  if pyStartsWith p "/" then p else "/" ++ p

/-- `GA4DataService.get_single_page_analytics` (lines 460–589).  `rows`
is the filtered base report; `srcRows` and `devRows` are the responses of
the per-page traffic-source and device sub-queries.  An empty base
response returns the structured "not found" record instead of raising. -/
def get_single_page_analytics (page_path start_date end_date : String)
    (rows srcRows devRows : List GA4Row) : SinglePageData :=
  let path := ensureLeadingSlash page_path
  match rows with
  | [] => .notFoundData "未找到該頁面的數據" path (start_date ++ " to " ++ end_date)
      ["請確認頁面路徑是否正確", "該頁面可能在指定時間範圍內沒有訪問數據",
        "請檢查URL格式是否正確"]
  | _ :: _ =>
    let daily := rows.map fun row =>
      { date := row.dim 2 ""
        pageViews := row.metricInt 0
        users := row.metricInt 1
        sessions := row.metricInt 2
        avgSessionDuration := roundTo2 (row.metricFloat 3)
        bounceRate := roundTo2 (row.metricFloat 4 * 100)
        engagementRate := roundTo2 (row.metricFloat 5 * 100)
        newUsers := row.metricInt 6 : DailyEntry }
    let page_title := rows.foldl (fun cur row =>
      if cur = "" ∨ cur = "未知標題" then row.dim 1 "未知標題" else cur) "未知標題"
    let total_sessions := (rows.map fun r => r.metricInt 2).sum
    let total_engagement := (rows.map fun r => r.metricFloat 7).sum
    let avg_bounce := if daily.length = 0 then 0
      else (daily.map fun e => e.bounceRate).sum / daily.length
    let avg_engagement := if daily.length = 0 then 0
      else (daily.map fun e => e.engagementRate).sum / daily.length
    let avg_session_duration := if 0 < total_sessions
      then total_engagement / (total_sessions : ℚ) else 0
    .found path page_title (start_date ++ " to " ++ end_date)
      { totalPageViews := (rows.map fun r => r.metricInt 0).sum
        totalUsers := (rows.map fun r => r.metricInt 1).sum
        totalSessions := total_sessions
        newUsers := (daily.map fun e => e.newUsers).sum
        avgBounceRate := roundTo2 avg_bounce
        avgEngagementRate := roundTo2 avg_engagement
        avgSessionDuration := roundTo2 avg_session_duration
        performanceGrade := calculate_performance_grade avg_bounce avg_engagement }
      daily (get_page_traffic_sources srcRows) (get_page_device_breakdown devRows)

/-! ### src/main.py — the single-page analytics endpoint -/

/-- `SinglePageAnalyticsResponse` (main.py lines 120–125; `status`
defaults to `"success"`). -/
structure SinglePageAnalyticsResponse where
  user : String
  pageData : SinglePageData
  dateRange : String
  timestamp : String
  status : String
deriving DecidableEq

/-- The response construction of the `get_single_page_analytics` endpoint
(main.py lines 647–673), after successful authentication and with the
service initialised: the Python code tests `if "error" in page_data`,
which holds exactly of the "not found" record, and then RETURNS a
response with status `"not_found"` (it does not raise); otherwise it
returns the default status `"success"`.  (The endpoint's 500 branch fires
only when the GA4 call itself raises — an external failure outside this
model.)  `ts` is the formatted current time. -/
def single_page_endpoint (user_name ts : String)
    (page_path start_date end_date : String) (rows srcRows devRows : List GA4Row) :
    SinglePageAnalyticsResponse :=
  let page_data := get_single_page_analytics page_path start_date end_date rows srcRows devRows
  match page_data with
  | .notFoundData _ _ _ _ =>
    { user := user_name
      pageData := page_data
      dateRange := start_date ++ " to " ++ end_date
      timestamp := ts
      status := "not_found" }
  | .found _ _ _ _ _ _ _ =>
    { user := user_name
      pageData := page_data
      dateRange := start_date ++ " to " ++ end_date
      timestamp := ts
      status := "success" }

/-- **C9.**  Empty result sets: the single-page lookup maps an empty
response to the structured "not found" record and the endpoint returns it
with status `"not_found"` (a value, not a raised error — the embedded
endpoint is a total function), while every other query operation maps
empty responses to empty lists or zeroed summaries without failing:
top pages, traffic sources, devices, geographic data and search terms
give `[]`; pageviews analytics gives a zeroed summary over an empty page
list; the realtime overview gives zero totals and empty breakdowns; the
realtime top-pages query gives the empty fallback list whether its first
query returns no rows or raises; and the performance metrics give a
zeroed summary (whose grade at zero averages is the bottom grade). -/
theorem claim_C9_empty_result_shapes (user_name ts p sd ed : String)
    (srcRows devRows : List GA4Row) :
    single_page_endpoint user_name ts p sd ed [] srcRows devRows =
        { user := user_name
          pageData := .notFoundData "未找到該頁面的數據" (ensureLeadingSlash p)
            (sd ++ " to " ++ ed)
            ["請確認頁面路徑是否正確", "該頁面可能在指定時間範圍內沒有訪問數據",
              "請檢查URL格式是否正確"]
          dateRange := sd ++ " to " ++ ed
          timestamp := ts
          status := "not_found" } ∧
      get_top_pages_analytics [] = [] ∧
      get_traffic_sources [] = [] ∧
      get_device_analytics [] = [] ∧
      get_pageviews_analytics [] =
        { summary := { totalPageViews := 0, totalUniqueViews := 0, totalPages := 0 }
          topPages := [] } ∧
      get_realtime_overview [] =
        { activeUsers := 0, pageViews := 0, events := 0, topCountries := []
          deviceBreakdown := [] } ∧
      get_realtime_top_pages (some []) [] = .byScreen [] ∧
      get_realtime_top_pages none [] = .byScreen [] ∧
      get_geographic_data [] = [] ∧
      get_search_terms [] = [] ∧
      get_performance_metrics [] =
        { summary := { totalPagesAnalyzed := 0, avgBounceRate := 0
                       avgEngagementRate := 0, performanceGrade := "D (急需優化)" }
          pagePerformance := [] } := by
  refine ⟨rfl, rfl, rfl, rfl, rfl, ?_, rfl, rfl, rfl, rfl, rfl⟩
  simp [get_realtime_overview, List.mergeSort_nil]

end GA4Spec
